import Mathlib

/-! Prospera chatbot: the `generateAnswer` exchange of `src/App.jsx`.

A shallow embedding of the React component `App` of `src/App.jsx`: its four
pieces of component state, the handler `generateAnswer` (split at its single
`await` into the part that runs before the request is dispatched and the part
that runs once the request has settled), and the three DOM handlers that reach
it (`onChange`, `onKeyDown`, the form's `onSubmit` behind the Send button).

JavaScript values that cross the network boundary are JSON values; the fragment
of JavaScript semantics the handler relies on (property access, optional
chaining, truthiness, `||`, template-literal string conversion, `trim`) is
embedded below.

Modelling conventions:
* strings are sequences of Unicode scalar values (lone surrogates are not
  representable); every character `trim` removes is in the basic plane;
* JSON numbers are integers, rendered in decimal as `Number::toString` renders
  integers below `10^21`;
* an object is the list of its own properties with distinct keys;
* every handler runs against the latest rendered state.
-/

namespace Prospera

/-! ## JavaScript values -/

/-- JSON-shaped JavaScript values, plus `undefined`. -/
inductive JSVal where
  | undefined : JSVal
  | null : JSVal
  | bool (b : Bool) : JSVal
  | num (n : Int) : JSVal
  | str (s : String) : JSVal
  | arr (xs : List JSVal) : JSVal
  | obj (fields : List (String × JSVal)) : JSVal

/-- Exceptions raised by the embedded JavaScript fragment. -/
inductive JSError where
  | typeError : JSError
deriving DecidableEq, Repr

namespace JSVal

/-- The test `v === undefined || v === null` that guards `?.` and that makes a
plain property access throw. -/
def isNullish : JSVal → Bool
  | undefined => true
  | null => true
  | _ => false

/-- JavaScript `ToBoolean`. -/
def truthy : JSVal → Bool
  | undefined => false
  | null => false
  | bool b => b
  | num n => n != 0
  | str s => s != ""
  | arr _ => true
  | obj _ => true

/-- The operator `a || b` on already evaluated operands (the right operands in
`App.jsx` are string literals, so evaluating them early is unobservable). -/
def or (a b : JSVal) : JSVal :=
  if a.truthy then a else b

/-- Property read `v[name]` on a value that is not nullish, for a property name
that is not an array index. Of the names `App.jsx` reads (`candidates`,
`content`, `parts`, `text`, `error`, `message`) none is an own or inherited
property of a string, array, number or boolean. -/
def field (v : JSVal) (name : String) : JSVal :=
  match v with
  | obj fs => (fs.lookup name).getD undefined
  | _ => undefined

/-- Property read `v[i]` for an array index `i` on a value that is not nullish:
an array element, an own property of an object named by the decimal of `i`, or
the `i`-th character of a string. -/
def index (v : JSVal) (i : Nat) : JSVal :=
  match v with
  | arr xs => xs.getD i undefined
  | obj fs => (fs.lookup (toString i)).getD undefined
  | str s => match s.data.get? i with
    | some c => str (String.singleton c)
    | none => undefined
  | _ => undefined

/-- Member access `v.name`: throws a `TypeError` on `undefined` and `null`. -/
def member (v : JSVal) (name : String) : Except JSError JSVal :=
  if v.isNullish then .error .typeError else .ok (v.field name)

/-- Optional member access `v?.name`. -/
def optField (v : JSVal) (name : String) : JSVal :=
  if v.isNullish then undefined else v.field name

/-- Optional element access `v?.[i]`. -/
def optIndex (v : JSVal) (i : Nat) : JSVal :=
  if v.isNullish then undefined else v.index i

mutual
/-- JavaScript `ToString`, as applied by a template literal. -/
def toStr : JSVal → String
  | undefined => "undefined"
  | null => "null"
  | bool true => "true"
  | bool false => "false"
  | num n => toString n
  | str s => s
  | arr xs => joinStr xs
  | obj _ => "[object Object]"
/-- The method `Array.prototype.join(",")`: nullish elements render as the empty
string. -/
def joinStr : List JSVal → String
  | [] => ""
  | [x] => elemStr x
  | x :: y :: rest => elemStr x ++ "," ++ joinStr (y :: rest)
/-- One element of an array being joined. -/
def elemStr : JSVal → String
  | undefined => ""
  | null => ""
  | bool true => "true"
  | bool false => "false"
  | num n => toString n
  | str s => s
  | arr xs => joinStr xs
  | obj _ => "[object Object]"
end

end JSVal

/-! ## `String.prototype.trim` -/

/-- ECMAScript `WhiteSpace` and `LineTerminator` code points. -/
def jsIsWhiteSpace (c : Char) : Bool :=
  c.val == 0x0009 || c.val == 0x000A || c.val == 0x000B || c.val == 0x000C ||
  c.val == 0x000D || c.val == 0x0020 || c.val == 0x00A0 || c.val == 0x1680 ||
  (0x2000 ≤ c.val && c.val ≤ 0x200A) || c.val == 0x2028 || c.val == 0x2029 ||
  c.val == 0x202F || c.val == 0x205F || c.val == 0x3000 || c.val == 0xFEFF

/-- The method `String.prototype.trim`. -/
def jsTrim (s : String) : String :=
  String.mk ((s.data.dropWhile jsIsWhiteSpace).reverse.dropWhile jsIsWhiteSpace).reverse

/-! ## Component state -/

/-- The `type` tag of a chat-history entry. -/
inductive MsgType where
  | question : MsgType
  | answer : MsgType
deriving DecidableEq, Repr

/-- One entry of `chatHistory`: the object literal with keys `type` and
`content`. -/
structure Message where
  type : MsgType
  content : JSVal

/-- The four `useState` cells of `App`. -/
structure AppState where
  chatHistory : List Message
  question : String
  answer : JSVal
  generatingAnswer : Bool

/-- The state of the first render: the `useState` initial values. -/
def AppState.initial : AppState :=
  { chatHistory := [], question := "", answer := .str "", generatingAnswer := false }

/-! ## The request and its outcomes -/

/-- The configuration object handed to `axios`. -/
structure AxiosRequest where
  url : String
  method : String
  headers : List (String × String)
  data : JSVal

/-- The part of an axios response the component reads. -/
structure AxiosResponse where
  data : JSVal

/-- The part of a rejection value the component reads: `error.response` is
either missing or a response object. -/
structure AxiosError where
  response : Option AxiosResponse

/-- How the awaited `axios` promise settles. -/
inductive AxiosOutcome where
  | resolved (response : AxiosResponse) : AxiosOutcome
  | rejected (error : AxiosError) : AxiosOutcome

/-- The argument of the `axios` call, lines 31-42. The build-time value
`import.meta.env.VITE_API_GENERATIVE_LANGUAGE_CLIENT` is the parameter
`apiKey`. -/
def axiosRequest (apiKey : JSVal) (currentQuestion : String) : AxiosRequest :=
  { url := "https://generativelanguage.googleapis.com/v1beta/models/gemini-2.0-flash:generateContent?key="
      ++ apiKey.toStr
    method := "post"
    headers := [("Content-Type", "application/json")]
    data := .obj [("contents",
      .arr [.obj [("parts",
        .arr [.obj [("text", .str ("Please answer briefly: " ++ currentQuestion))]])]])] }

/-! ## `generateAnswer` -/

/-- Lines 21-42 of `generateAnswer`: everything that runs before the `await`
suspends the handler. Returns the next state and the request handed to `axios`,
if one was. -/
def generateAnswerSync (apiKey : JSVal) (s : AppState) : AppState × Option AxiosRequest :=
  if !(JSVal.str (jsTrim s.question)).truthy then (s, none)
  else
    let currentQuestion := s.question
    ({ chatHistory := s.chatHistory ++ [{ type := .question, content := .str currentQuestion }]
       question := ""
       answer := s.answer
       generatingAnswer := true },
     some (axiosRequest apiKey currentQuestion))

/-- Lines 45-47: the text extracted from a resolved response. -/
def aiResponse (response : AxiosResponse) : JSVal :=
  ((((((response.data.optField "candidates").optIndex 0).optField "content").optField
    "parts").optIndex 0).optField "text").or (.str "Sorry - No response from Gemini API.")

/-- The template literal of lines 55 and 58, evaluated on `error.response`. -/
def errorText (response : AxiosResponse) : Except JSError String :=
  match response.data.member "error" with
  | .error e => .error e
  | .ok err => .ok ("Error: " ++ ((err.optField "message").or (.str "Something went wrong.")).toStr)

/-- What a run of the continuation of `generateAnswer` leaves behind: the state,
and the exception that left the handler, if one did. -/
structure Settled where
  state : AppState
  thrown : Option JSError

/-- Lines 45-68 of `generateAnswer`: the continuation that runs when the awaited
request has settled, on the state current at that moment. `setChatHistory` is
called with an updater, `setAnswer` and `setGeneratingAnswer` with values. -/
def generateAnswerSettle (s : AppState) : AxiosOutcome → Settled
  | .resolved response =>
    let ai := aiResponse response
    { state := { chatHistory := s.chatHistory ++ [{ type := .answer, content := ai }]
                 question := s.question
                 answer := ai
                 generatingAnswer := false }
      thrown := none }
  | .rejected error =>
    match error.response with
    | some r =>
      match errorText r with
      | .error e => { state := s, thrown := some e }
      | .ok shown =>
        match errorText r with
        | .error e => { state := { s with answer := .str shown }, thrown := some e }
        | .ok recorded =>
          { state := { chatHistory := s.chatHistory ++ [{ type := .answer, content := .str recorded }]
                       question := s.question
                       answer := .str shown
                       generatingAnswer := false }
            thrown := none }
    | none =>
      let text := "Sorry - Something went wrong. Please try again!"
      { state := { chatHistory := s.chatHistory ++ [{ type := .answer, content := .str text }]
                   question := s.question
                   answer := .str text
                   generatingAnswer := false }
        thrown := none }

/-- One whole call of `generateAnswer` with nothing interleaved at the `await`:
`outcome` is how the request settles, if one is dispatched. -/
def generateAnswer (apiKey : JSVal) (s : AppState) (outcome : AxiosOutcome) :
    Settled × Option AxiosRequest :=
  match generateAnswerSync apiKey s with
  | (s1, none) => ({ state := s1, thrown := none }, none)
  | (s1, some request) => (generateAnswerSettle s1 outcome, some request)

/-! ## DOM handlers -/

/-- The textarea's `onChange`: `setQuestion(e.target.value)`. -/
def onChange (s : AppState) (value : String) : AppState :=
  { s with question := value }

/-- The textarea's `onKeyDown`, lines 152-157. -/
def onKeyDown (apiKey : JSVal) (s : AppState) (key : String) (shiftKey : Bool) :
    AppState × Option AxiosRequest :=
  if key == "Enter" && !shiftKey then generateAnswerSync apiKey s else (s, none)

/-- A click on the Send button: the button is `disabled` while
`generatingAnswer`, otherwise the form's `onSubmit` runs `generateAnswer`. (The
textarea is `required`, so the browser withholds `onSubmit` for an empty value,
for which `generateAnswer` returns at once anyway.) -/
def onSendClick (apiKey : JSVal) (s : AppState) : AppState × Option AxiosRequest :=
  if s.generatingAnswer then (s, none) else generateAnswerSync apiKey s

/-- Everything that can change the component state. -/
inductive Event where
  | change (value : String) : Event
  | keyDown (key : String) (shiftKey : Bool) : Event
  | sendClick : Event
  | settled (outcome : AxiosOutcome) : Event

/-- The state after one event. -/
def step (apiKey : JSVal) (s : AppState) : Event → AppState
  | .change value => onChange s value
  | .keyDown key shiftKey => (onKeyDown apiKey s key shiftKey).1
  | .sendClick => (onSendClick apiKey s).1
  | .settled outcome => (generateAnswerSettle s outcome).state

/-! ## Response shapes named by the specification -/

/-- The response body holds `t` as the generated text: an object whose
`candidates` is an array whose first element is an object whose `content` is an
object whose `parts` is an array whose first element is an object whose `text`
is `t`. -/
inductive HoldsText : JSVal → JSVal → Prop where
  | intro {fs cf kf pf : List (String × JSVal)} {cs ps : List JSVal} {t : JSVal}
      (hcand : fs.lookup "candidates" = some (.arr (.obj cf :: cs)))
      (hcontent : cf.lookup "content" = some (.obj kf))
      (hparts : kf.lookup "parts" = some (.arr (.obj pf :: ps)))
      (htext : pf.lookup "text" = some t) :
      HoldsText (.obj fs) t

/-- An element along the path `data.candidates[0].content.parts[0].text` of the
response is absent: no body, no `candidates` field, an empty `candidates` list,
no `content`, no `parts`, an empty `parts` list, or no `text`. -/
inductive PathAbsent : JSVal → Prop where
  | noBody {data : JSVal} (h : data.isNullish = true) : PathAbsent data
  | noCandidates {fs : List (String × JSVal)}
      (h : fs.lookup "candidates" = none) : PathAbsent (.obj fs)
  | emptyCandidates {fs : List (String × JSVal)}
      (h : fs.lookup "candidates" = some (.arr [])) : PathAbsent (.obj fs)
  | noContent {fs cf : List (String × JSVal)} {cs : List JSVal}
      (hcand : fs.lookup "candidates" = some (.arr (.obj cf :: cs)))
      (h : cf.lookup "content" = none) : PathAbsent (.obj fs)
  | noParts {fs cf kf : List (String × JSVal)} {cs : List JSVal}
      (hcand : fs.lookup "candidates" = some (.arr (.obj cf :: cs)))
      (hcontent : cf.lookup "content" = some (.obj kf))
      (h : kf.lookup "parts" = none) : PathAbsent (.obj fs)
  | emptyParts {fs cf kf : List (String × JSVal)} {cs : List JSVal}
      (hcand : fs.lookup "candidates" = some (.arr (.obj cf :: cs)))
      (hcontent : cf.lookup "content" = some (.obj kf))
      (h : kf.lookup "parts" = some (.arr [])) : PathAbsent (.obj fs)
  | noText {fs cf kf pf : List (String × JSVal)} {cs ps : List JSVal}
      (hcand : fs.lookup "candidates" = some (.arr (.obj cf :: cs)))
      (hcontent : cf.lookup "content" = some (.obj kf))
      (hparts : kf.lookup "parts" = some (.arr (.obj pf :: ps)))
      (h : pf.lookup "text" = none) : PathAbsent (.obj fs)

/-- The error body is an object that carries the server message `m` at
`error.message`. -/
inductive HoldsErrorMessage : JSVal → JSVal → Prop where
  | intro {fs es : List (String × JSVal)} {m : JSVal}
      (herror : fs.lookup "error" = some (.obj es))
      (hmessage : es.lookup "message" = some m) :
      HoldsErrorMessage (.obj fs) m

/-- The failure carries no server-provided error message: there is no response
at all, or the response body is an object with no `error` field or whose `error`
object has no `message` field. -/
inductive NoServerMessage : AxiosError → Prop where
  | noResponse : NoServerMessage { response := none }
  | noError {fs : List (String × JSVal)}
      (h : fs.lookup "error" = none) :
      NoServerMessage { response := some { data := .obj fs } }
  | noMessage {fs es : List (String × JSVal)}
      (herror : fs.lookup "error" = some (.obj es))
      (h : es.lookup "message" = none) :
      NoServerMessage { response := some { data := .obj fs } }

/-- The request was rejected with a response whose body is `undefined` or
`null`. -/
def AxiosOutcome.rejectedWithNullishBody : AxiosOutcome → Bool
  | .rejected { response := some r } => r.data.isNullish
  | _ => false

/-! ## Basic facts -/

theorem truthy_str (s : String) : (JSVal.str s).truthy = true ↔ s ≠ "" := by
  simp [JSVal.truthy]

theorem generateAnswerSync_of_blank (apiKey : JSVal) (s : AppState)
    (h : jsTrim s.question = "") : generateAnswerSync apiKey s = (s, none) := by
  simp [generateAnswerSync, JSVal.truthy, h]

theorem generateAnswerSync_of_text (apiKey : JSVal) (s : AppState)
    (h : jsTrim s.question ≠ "") :
    generateAnswerSync apiKey s =
      ({ chatHistory := s.chatHistory ++ [{ type := .question, content := .str s.question }]
         question := ""
         answer := s.answer
         generatingAnswer := true },
       some (axiosRequest apiKey s.question)) := by
  simp [generateAnswerSync, JSVal.truthy, h]

@[simp] theorem optField_obj (fs : List (String × JSVal)) (name : String) :
    (JSVal.obj fs).optField name = (fs.lookup name).getD .undefined := rfl

@[simp] theorem optField_undefined (name : String) :
    JSVal.undefined.optField name = .undefined := rfl

@[simp] theorem optIndex_undefined (i : Nat) :
    JSVal.undefined.optIndex i = .undefined := rfl

@[simp] theorem optIndex_arr_nil (i : Nat) :
    (JSVal.arr []).optIndex i = .undefined := rfl

@[simp] theorem optIndex_arr_cons (x : JSVal) (xs : List JSVal) :
    (JSVal.arr (x :: xs)).optIndex 0 = x := rfl

@[simp] theorem or_undefined (b : JSVal) : JSVal.undefined.or b = b := rfl

theorem or_str_of_ne (s : String) (b : JSVal) (h : s ≠ "") :
    (JSVal.str s).or b = .str s := by
  simp [JSVal.or, JSVal.truthy, h]

theorem aiResponse_of_holdsText {data t : JSVal} (h : HoldsText data t) :
    aiResponse { data := data } = t.or (.str "Sorry - No response from Gemini API.") := by
  cases h with
  | intro hcand hcontent hparts htext =>
    simp only [aiResponse, optField_obj, optIndex_arr_cons, hcand, hcontent, hparts, htext,
      Option.getD_some]

theorem aiResponse_of_pathAbsent {data : JSVal} (h : PathAbsent data) :
    aiResponse { data := data } = .str "Sorry - No response from Gemini API." := by
  cases h with
  | noBody h =>
    have h0 : data.optField "candidates" = .undefined := by
      simp only [JSVal.optField, h, if_true]
    simp only [aiResponse, h0, optIndex_undefined, optField_undefined, or_undefined]
  | noCandidates h =>
    simp only [aiResponse, optField_obj, h, Option.getD_none, optField_undefined,
      optIndex_undefined, or_undefined]
  | emptyCandidates h =>
    simp only [aiResponse, optField_obj, h, Option.getD_some, optIndex_arr_nil,
      optField_undefined, optIndex_undefined, or_undefined]
  | noContent hcand h =>
    simp only [aiResponse, optField_obj, hcand, h, Option.getD_some, Option.getD_none,
      optIndex_arr_cons, optField_undefined, optIndex_undefined, or_undefined]
  | noParts hcand hcontent h =>
    simp only [aiResponse, optField_obj, hcand, hcontent, h, Option.getD_some,
      Option.getD_none, optIndex_arr_cons, optField_undefined, optIndex_undefined,
      or_undefined]
  | emptyParts hcand hcontent h =>
    simp only [aiResponse, optField_obj, hcand, hcontent, h, Option.getD_some,
      optIndex_arr_cons, optIndex_arr_nil, optField_undefined, or_undefined]
  | noText hcand hcontent hparts h =>
    simp only [aiResponse, optField_obj, hcand, hcontent, hparts, h, Option.getD_some,
      Option.getD_none, optIndex_arr_cons, or_undefined]

theorem errorText_of_object (fs : List (String × JSVal)) :
    errorText { data := .obj fs } =
      .ok ("Error: " ++ ((((fs.lookup "error").getD .undefined).optField "message").or
        (.str "Something went wrong.")).toStr) := by
  simp [errorText, JSVal.member, JSVal.isNullish, JSVal.field]

theorem generateAnswerSettle_resolved (s : AppState) (response : AxiosResponse) :
    generateAnswerSettle s (.resolved response) =
      { state := { chatHistory := s.chatHistory ++
                     [{ type := .answer, content := aiResponse response }]
                   question := s.question
                   answer := aiResponse response
                   generatingAnswer := false }
        thrown := none } := rfl

theorem generateAnswerSettle_noResponse (s : AppState) :
    generateAnswerSettle s (.rejected { response := none }) =
      { state := { chatHistory := s.chatHistory ++
                     [{ type := .answer
                        content := .str "Sorry - Something went wrong. Please try again!" }]
                   question := s.question
                   answer := .str "Sorry - Something went wrong. Please try again!"
                   generatingAnswer := false }
        thrown := none } := rfl

theorem generateAnswerSettle_of_errorText (s : AppState) (r : AxiosResponse) (text : String)
    (h : errorText r = .ok text) :
    generateAnswerSettle s (.rejected { response := some r }) =
      { state := { chatHistory := s.chatHistory ++ [{ type := .answer, content := .str text }]
                   question := s.question
                   answer := .str text
                   generatingAnswer := false }
        thrown := none } := by
  simp only [generateAnswerSettle, h]

theorem generateAnswerSettle_of_throw (s : AppState) (r : AxiosResponse) (e : JSError)
    (h : errorText r = .error e) :
    generateAnswerSettle s (.rejected { response := some r }) =
      { state := s, thrown := some e } := by
  simp only [generateAnswerSettle, h]

theorem errorText_of_not_nullish (r : AxiosResponse) (h : r.data.isNullish = false) :
    ∃ text, errorText r = .ok text := by
  simp [errorText, JSVal.member, h]

theorem errorText_of_nullish (r : AxiosResponse) (h : r.data.isNullish = true) :
    errorText r = .error .typeError := by
  simp [errorText, JSVal.member, h]

/-! ## The synchronous part of a submission -/

/-- C7: for a draft whose trimmed form is non-empty, submitted from an idle
state, the part of `generateAnswer` that runs before the request is dispatched
leaves the old history followed by one question message holding the draft as
typed, an empty draft, and the in-progress flag set. -/
theorem generateAnswerSync_accepts (apiKey : JSVal) (s : AppState)
    (hidle : s.generatingAnswer = false) (htext : jsTrim s.question ≠ "") :
    (generateAnswerSync apiKey s).1.chatHistory =
        s.chatHistory ++ [{ type := .question, content := .str s.question }] ∧
      (generateAnswerSync apiKey s).1.question = "" ∧
      (generateAnswerSync apiKey s).1.generatingAnswer = true := by
  have _ := hidle
  rw [generateAnswerSync_of_text apiKey s htext]
  exact ⟨rfl, rfl, rfl⟩

theorem generateAnswerSync_accepts_witness :
    ((AppState.mk [] "  hello " (.str "") false).generatingAnswer = false ∧
      jsTrim (AppState.mk [] "  hello " (.str "") false).question ≠ "") ∧
    (generateAnswerSync .undefined (AppState.mk [] "  hello " (.str "") false)).1.chatHistory =
        [{ type := .question, content := .str "  hello " }] ∧
      (generateAnswerSync .undefined (AppState.mk [] "  hello " (.str "") false)).1.question
        = "" ∧
      (generateAnswerSync .undefined
        (AppState.mk [] "  hello " (.str "") false)).1.generatingAnswer = true :=
  ⟨⟨rfl, by decide⟩,
    generateAnswerSync_accepts .undefined (AppState.mk [] "  hello " (.str "") false)
      rfl (by decide)⟩

/-- C8: for a draft whose trimmed form is empty, a submission is ignored, by
`generateAnswer` itself and through either handler that reaches it: the state
(history, draft and in-progress flag included) is unchanged and no request is
dispatched. -/
theorem generateAnswerSync_ignores_blank (apiKey : JSVal) (s : AppState)
    (hblank : jsTrim s.question = "") :
    generateAnswerSync apiKey s = (s, none) ∧
      (∀ key shiftKey, onKeyDown apiKey s key shiftKey = (s, none)) ∧
      onSendClick apiKey s = (s, none) := by
  have h := generateAnswerSync_of_blank apiKey s hblank
  refine ⟨h, ?_, ?_⟩
  · intro key shiftKey
    unfold onKeyDown
    split
    · exact h
    · rfl
  · unfold onSendClick
    split
    · rfl
    · exact h

theorem generateAnswerSync_ignores_blank_witness :
    jsTrim (AppState.mk [{ type := .question, content := .str "a" }] " \t\n "
      (.str "") false).question = "" ∧
    (generateAnswerSync (.str "k")
        (AppState.mk [{ type := .question, content := .str "a" }] " \t\n " (.str "") false) =
        (AppState.mk [{ type := .question, content := .str "a" }] " \t\n " (.str "") false,
          none) ∧
      (∀ key shiftKey, onKeyDown (.str "k")
        (AppState.mk [{ type := .question, content := .str "a" }] " \t\n " (.str "") false)
        key shiftKey =
        (AppState.mk [{ type := .question, content := .str "a" }] " \t\n " (.str "") false,
          none)) ∧
      onSendClick (.str "k")
        (AppState.mk [{ type := .question, content := .str "a" }] " \t\n " (.str "") false) =
        (AppState.mk [{ type := .question, content := .str "a" }] " \t\n " (.str "") false,
          none)) :=
  ⟨by decide,
    generateAnswerSync_ignores_blank (.str "k")
      (AppState.mk [{ type := .question, content := .str "a" }] " \t\n " (.str "") false)
      (by decide)⟩

/-! ## The request -/

/-- C9: for every accepted question text, the body of the dispatched request is
`contents` = one item whose `parts` = one part whose `text` is the prefix
"Please answer briefly: " followed by the text exactly as stored in the question
message, untrimmed. -/
theorem generateAnswerSync_request_body (apiKey : JSVal) (s : AppState)
    (htext : jsTrim s.question ≠ "") :
    ∃ request, (generateAnswerSync apiKey s).2 = some request ∧
      request.data = .obj [("contents",
        .arr [.obj [("parts",
          .arr [.obj [("text", .str ("Please answer briefly: " ++ s.question))]])]])] ∧
      (generateAnswerSync apiKey s).1.chatHistory =
        s.chatHistory ++ [{ type := .question, content := .str s.question }] := by
  rw [generateAnswerSync_of_text apiKey s htext]
  exact ⟨_, rfl, rfl, rfl⟩

theorem generateAnswerSync_request_body_witness :
    jsTrim (AppState.mk [] " Why? " (.str "") false).question ≠ "" ∧
    ∃ request,
      (generateAnswerSync (.str "k") (AppState.mk [] " Why? " (.str "") false)).2
        = some request ∧
      request.data = .obj [("contents",
        .arr [.obj [("parts",
          .arr [.obj [("text", .str ("Please answer briefly: " ++ " Why? "))]])]])] ∧
      (generateAnswerSync (.str "k") (AppState.mk [] " Why? " (.str "") false)).1.chatHistory =
        [{ type := .question, content := .str " Why? " }] :=
  ⟨by decide,
    generateAnswerSync_request_body (.str "k") (AppState.mk [] " Why? " (.str "") false)
      (by decide)⟩

/-! ## The history is append-only -/

theorem generateAnswerSync_extends_history (apiKey : JSVal) (s : AppState) :
    s.chatHistory <+: (generateAnswerSync apiKey s).1.chatHistory := by
  by_cases h : jsTrim s.question = ""
  · rw [generateAnswerSync_of_blank apiKey s h]
  · rw [generateAnswerSync_of_text apiKey s h]
    exact List.prefix_append _ _

theorem generateAnswerSettle_extends_history (s : AppState) (outcome : AxiosOutcome) :
    s.chatHistory <+: (generateAnswerSettle s outcome).state.chatHistory := by
  cases outcome with
  | resolved response =>
    rw [generateAnswerSettle_resolved]
    exact List.prefix_append _ _
  | rejected error =>
    cases error with
    | mk response =>
      cases response with
      | none =>
        rw [generateAnswerSettle_noResponse]
        exact List.prefix_append _ _
      | some r =>
        cases h : errorText r with
        | error e => rw [generateAnswerSettle_of_throw s r e h]
        | ok text =>
          rw [generateAnswerSettle_of_errorText s r text h]
          exact List.prefix_append _ _

/-- C10: the history is append-only. For every state and every event (a
submission through the Enter key or the Send button, accepted or not; a request
settling with an answer or with a failure; an edit of the draft) the history
before the event is a prefix of the history after it; and an edit of the draft
leaves the history identical. -/
theorem chatHistory_append_only (apiKey : JSVal) (s : AppState) :
    (∀ ev : Event, s.chatHistory <+: (step apiKey s ev).chatHistory) ∧
      (∀ value : String, (step apiKey s (.change value)).chatHistory = s.chatHistory) := by
  refine ⟨?_, fun _ => rfl⟩
  intro ev
  cases ev with
  | change value => exact List.prefix_refl _
  | keyDown key shiftKey =>
    simp only [step, onKeyDown]
    split
    · exact generateAnswerSync_extends_history apiKey s
    · exact List.prefix_refl _
  | sendClick =>
    simp only [step, onSendClick]
    split
    · exact List.prefix_refl _
    · exact generateAnswerSync_extends_history apiKey s
  | settled outcome => exact generateAnswerSettle_extends_history s outcome

/-! ## Resolved requests -/

/-- C6: for every resolved response body in which an element along the path
`candidates[0].content.parts[0].text` is absent, the continuation throws
nothing, appends one answer message whose content is exactly
"Sorry - No response from Gemini API.", and clears the in-progress flag. -/
theorem generateAnswerSettle_absent_path (s : AppState) (data : JSVal)
    (habsent : PathAbsent data) :
    generateAnswerSettle s (.resolved { data := data }) =
      { state := { chatHistory := s.chatHistory ++
                     [{ type := .answer
                        content := .str "Sorry - No response from Gemini API." }]
                   question := s.question
                   answer := .str "Sorry - No response from Gemini API."
                   generatingAnswer := false }
        thrown := none } := by
  rw [generateAnswerSettle_resolved, aiResponse_of_pathAbsent habsent]

theorem generateAnswerSettle_absent_path_witness :
    PathAbsent (.obj [("candidates", .arr [])]) ∧
    generateAnswerSettle (AppState.mk [{ type := .question, content := .str "q" }] "" (.str "")
        true) (.resolved { data := .obj [("candidates", .arr [])] }) =
      { state := { chatHistory := [{ type := .question, content := .str "q" },
                     { type := .answer
                       content := .str "Sorry - No response from Gemini API." }]
                   question := ""
                   answer := .str "Sorry - No response from Gemini API."
                   generatingAnswer := false }
        thrown := none } :=
  ⟨PathAbsent.emptyCandidates rfl,
    generateAnswerSettle_absent_path
      (AppState.mk [{ type := .question, content := .str "q" }] "" (.str "") true)
      (.obj [("candidates", .arr [])]) (PathAbsent.emptyCandidates rfl)⟩

/-- C4, as stated, fails for the empty text: the body
`candidates: [content: parts: [text: ""]]` holds the text "" at the path, and
the continuation records the fallback string, not "". -/
theorem generateAnswerSettle_empty_text_falls_back :
    HoldsText
        (.obj [("candidates", .arr [.obj [("content",
          .obj [("parts", .arr [.obj [("text", .str "")]])])]])])
        (.str "") ∧
      (generateAnswerSettle AppState.initial
        (.resolved { data := .obj [("candidates", .arr [.obj [("content",
          .obj [("parts", .arr [.obj [("text", .str "")]])])]])] })).state.chatHistory =
        [{ type := .answer, content := .str "Sorry - No response from Gemini API." }] ∧
      (generateAnswerSettle AppState.initial
        (.resolved { data := .obj [("candidates", .arr [.obj [("content",
          .obj [("parts", .arr [.obj [("text", .str "")]])])]])] })).state.chatHistory ≠
        AppState.initial.chatHistory ++ [{ type := .answer, content := .str "" }] := by
  refine ⟨HoldsText.intro rfl rfl rfl rfl, rfl, ?_⟩
  intro h
  have h1 : [Message.mk .answer (.str "Sorry - No response from Gemini API.")] =
      [Message.mk .answer (.str "")] := h
  injection h1 with h2 _
  injection h2 with _ h3
  injection h3 with h4
  exact absurd h4 (by decide)

/-- C4, amended: for every non-empty string `t`, when the response body holds
`t` as the generated text at `candidates[0].content.parts[0].text`, the exchange
resolves with exactly `t`, and the continuation throws nothing, appends one
answer message with content `t` and clears the in-progress flag. -/
theorem generateAnswerSettle_records_text (s : AppState) (data : JSVal) (t : String)
    (hholds : HoldsText data (.str t)) (hne : t ≠ "") :
    aiResponse { data := data } = .str t ∧
      generateAnswerSettle s (.resolved { data := data }) =
        { state := { chatHistory := s.chatHistory ++ [{ type := .answer, content := .str t }]
                     question := s.question
                     answer := .str t
                     generatingAnswer := false }
          thrown := none } := by
  have h : aiResponse { data := data } = .str t := by
    rw [aiResponse_of_holdsText hholds, or_str_of_ne t _ hne]
  exact ⟨h, by rw [generateAnswerSettle_resolved, h]⟩

theorem generateAnswerSettle_records_text_witness :
    (HoldsText
        (.obj [("candidates", .arr [.obj [("content",
          .obj [("parts", .arr [.obj [("text", .str "Paris")]])])]])])
        (.str "Paris") ∧ "Paris" ≠ "") ∧
      aiResponse { data := .obj [("candidates", .arr [.obj [("content",
          .obj [("parts", .arr [.obj [("text", .str "Paris")]])])]])] } = .str "Paris" ∧
      generateAnswerSettle
          (AppState.mk [{ type := .question, content := .str "What is the capital of France?" }]
            "" (.str "") true)
          (.resolved { data := .obj [("candidates", .arr [.obj [("content",
            .obj [("parts", .arr [.obj [("text", .str "Paris")]])])]])] }) =
        { state := { chatHistory :=
                       [{ type := .question, content := .str "What is the capital of France?" },
                        { type := .answer, content := .str "Paris" }]
                     question := ""
                     answer := .str "Paris"
                     generatingAnswer := false }
          thrown := none } :=
  ⟨⟨HoldsText.intro rfl rfl rfl rfl, by decide⟩,
    generateAnswerSettle_records_text
      (AppState.mk [{ type := .question, content := .str "What is the capital of France?" }]
        "" (.str "") true)
      (.obj [("candidates", .arr [.obj [("content",
        .obj [("parts", .arr [.obj [("text", .str "Paris")]])])]])])
      "Paris" (HoldsText.intro rfl rfl rfl rfl) (by decide)⟩

/-! ## Rejected requests -/

/-- C5, as stated, fails for the empty message: the error body
`error: message: ""` carries the server message "", and the continuation records
"Error: Something went wrong.", not "Error: " followed by "". -/
theorem generateAnswerSettle_empty_message_falls_back :
    HoldsErrorMessage (.obj [("error", .obj [("message", .str "")])]) (.str "") ∧
      (generateAnswerSettle AppState.initial
        (.rejected { response := some { data := .obj [("error", .obj [("message", .str "")])] } })
        ).state.chatHistory =
        [{ type := .answer, content := .str "Error: Something went wrong." }] ∧
      (generateAnswerSettle AppState.initial
        (.rejected { response := some { data := .obj [("error", .obj [("message", .str "")])] } })
        ).state.chatHistory ≠
        AppState.initial.chatHistory ++ [{ type := .answer, content := .str ("Error: " ++ "") }] := by
  refine ⟨HoldsErrorMessage.intro rfl rfl, rfl, ?_⟩
  intro h
  have h1 : [Message.mk .answer (.str "Error: Something went wrong.")] =
      [Message.mk .answer (.str "Error: ")] := h
  injection h1 with h2 _
  injection h2 with _ h3
  injection h3 with h4
  exact absurd h4 (by decide)

theorem errorText_of_holdsErrorMessage {data : JSVal} {m : String}
    (h : HoldsErrorMessage data (.str m)) (hne : m ≠ "") :
    errorText { data := data } = .ok ("Error: " ++ m) := by
  cases h with
  | intro herror hmessage =>
    rw [errorText_of_object]
    simp only [herror, hmessage, Option.getD_some, optField_obj, or_str_of_ne m _ hne,
      JSVal.toStr]

/-- C5, amended: for every error that carries a response whose body has a
non-empty server-provided error message `m`, the continuation throws nothing,
appends one answer message whose content is exactly "Error: " followed by `m`
verbatim, and clears the in-progress flag. -/
theorem generateAnswerSettle_records_server_message (s : AppState) (data : JSVal) (m : String)
    (hholds : HoldsErrorMessage data (.str m)) (hne : m ≠ "") :
    generateAnswerSettle s (.rejected { response := some { data := data } }) =
      { state := { chatHistory := s.chatHistory ++
                     [{ type := .answer, content := .str ("Error: " ++ m) }]
                   question := s.question
                   answer := .str ("Error: " ++ m)
                   generatingAnswer := false }
        thrown := none } :=
  generateAnswerSettle_of_errorText s _ _ (errorText_of_holdsErrorMessage hholds hne)

theorem generateAnswerSettle_records_server_message_witness :
    (HoldsErrorMessage (.obj [("error", .obj [("message", .str "Invalid API key")])])
        (.str "Invalid API key") ∧ "Invalid API key" ≠ "") ∧
      generateAnswerSettle (AppState.mk [{ type := .question, content := .str "q" }] "" (.str "")
          true)
        (.rejected (AxiosError.mk (some (AxiosResponse.mk
          (.obj [("error", .obj [("message", .str "Invalid API key")])]))))) =
      { state := { chatHistory := [{ type := .question, content := .str "q" },
                     { type := .answer, content := .str "Error: Invalid API key" }]
                   question := ""
                   answer := .str "Error: Invalid API key"
                   generatingAnswer := false }
        thrown := none } :=
  ⟨⟨HoldsErrorMessage.intro rfl rfl, by decide⟩,
    generateAnswerSettle_records_server_message
      (AppState.mk [{ type := .question, content := .str "q" }] "" (.str "") true)
      (.obj [("error", .obj [("message", .str "Invalid API key")])]) "Invalid API key"
      (HoldsErrorMessage.intro rfl rfl) (by decide)⟩

/-- C3, as stated, fails for a response without an error message: the error
body with no fields carries no server message, and the continuation records
"Error: Something went wrong.", not
"Sorry - Something went wrong. Please try again!". -/
theorem generateAnswerSettle_response_without_message :
    NoServerMessage { response := some { data := .obj [] } } ∧
      (generateAnswerSettle AppState.initial
        (.rejected { response := some { data := .obj [] } })).state.chatHistory =
        [{ type := .answer, content := .str "Error: Something went wrong." }] ∧
      (generateAnswerSettle AppState.initial
        (.rejected { response := some { data := .obj [] } })).state.chatHistory ≠
        AppState.initial.chatHistory ++
          [{ type := .answer, content := .str "Sorry - Something went wrong. Please try again!" }] := by
  refine ⟨NoServerMessage.noError rfl, rfl, ?_⟩
  intro h
  have h1 : [Message.mk .answer (.str "Error: Something went wrong.")] =
      [Message.mk .answer (.str "Sorry - Something went wrong. Please try again!")] := h
  injection h1 with h2 _
  injection h2 with _ h3
  injection h3 with h4
  exact absurd h4 (by decide)

/-- C3, amended: for every failure that carries no server-provided error
message, the continuation throws nothing, clears the in-progress flag and
appends one answer message whose content is exactly
"Sorry - Something went wrong. Please try again!" when there is no response at
all, and exactly "Error: Something went wrong." when there is a response whose
body is an object without an error message. -/
theorem generateAnswerSettle_without_server_message (s : AppState) (error : AxiosError)
    (hnone : NoServerMessage error) :
    (error.response = none →
      generateAnswerSettle s (.rejected error) =
        { state := { chatHistory := s.chatHistory ++
                       [{ type := .answer
                          content := .str "Sorry - Something went wrong. Please try again!" }]
                     question := s.question
                     answer := .str "Sorry - Something went wrong. Please try again!"
                     generatingAnswer := false }
          thrown := none }) ∧
    (error.response ≠ none →
      generateAnswerSettle s (.rejected error) =
        { state := { chatHistory := s.chatHistory ++
                       [{ type := .answer, content := .str "Error: Something went wrong." }]
                     question := s.question
                     answer := .str "Error: Something went wrong."
                     generatingAnswer := false }
          thrown := none }) := by
  cases hnone with
  | noResponse => exact ⟨fun _ => generateAnswerSettle_noResponse s, fun h => absurd rfl h⟩
  | noError h =>
    refine ⟨fun hr => (by cases hr), fun _ => ?_⟩
    apply generateAnswerSettle_of_errorText
    rw [errorText_of_object]
    simp only [h, Option.getD_none, optField_undefined, or_undefined, JSVal.toStr]
    rfl
  | noMessage herror h =>
    refine ⟨fun hr => (by cases hr), fun _ => ?_⟩
    apply generateAnswerSettle_of_errorText
    rw [errorText_of_object]
    simp only [herror, h, Option.getD_some, Option.getD_none, optField_obj, or_undefined,
      JSVal.toStr]
    rfl

theorem generateAnswerSettle_without_server_message_witness :
    NoServerMessage { response := some { data := .obj [("error", .obj [])] } } ∧
      generateAnswerSettle (AppState.mk [{ type := .question, content := .str "q" }] "" (.str "")
          true)
        (.rejected { response := some { data := .obj [("error", .obj [])] } }) =
      { state := { chatHistory := [{ type := .question, content := .str "q" },
                     { type := .answer, content := .str "Error: Something went wrong." }]
                   question := ""
                   answer := .str "Error: Something went wrong."
                   generatingAnswer := false }
        thrown := none } :=
  ⟨NoServerMessage.noMessage rfl rfl,
    (generateAnswerSettle_without_server_message
      (AppState.mk [{ type := .question, content := .str "q" }] "" (.str "") true)
      { response := some { data := .obj [("error", .obj [])] } }
      (NoServerMessage.noMessage rfl rfl)).2 (by simp)⟩

/-! ## Where the code departs from the specification -/

/-- C1, evaluated on the code: with a request in flight (in-progress flag set)
and the draft "second", pressing Enter runs `generateAnswer`, which appends a
second question message and dispatches a second request; the Send button, being
disabled, leaves the same state untouched. -/
theorem onKeyDown_enter_while_generating :
    onKeyDown (.str "k")
        (AppState.mk [{ type := .question, content := .str "first" }] "second" (.str "") true)
        "Enter" false =
      (AppState.mk [{ type := .question, content := .str "first" },
          { type := .question, content := .str "second" }] "" (.str "") true,
        some (axiosRequest (.str "k") "second")) ∧
    onSendClick (.str "k")
        (AppState.mk [{ type := .question, content := .str "first" }] "second" (.str "") true) =
      (AppState.mk [{ type := .question, content := .str "first" }] "second" (.str "") true,
        none) :=
  ⟨rfl, rfl⟩

/-- The guard of `generateAnswer` never reads the in-progress flag: whatever the
flag, a draft with a non-empty trimmed form is accepted. -/
theorem generateAnswerSync_ignores_flag (apiKey : JSVal) (s : AppState) (flag : Bool)
    (htext : jsTrim s.question ≠ "") :
    (generateAnswerSync apiKey { s with generatingAnswer := flag }).1.chatHistory =
        s.chatHistory ++ [{ type := .question, content := .str s.question }] ∧
      (generateAnswerSync apiKey { s with generatingAnswer := flag }).2 =
        some (axiosRequest apiKey s.question) := by
  rw [generateAnswerSync_of_text apiKey { s with generatingAnswer := flag } htext]
  exact ⟨rfl, rfl⟩

/-- C2, evaluated on the code: when the request is rejected with a response
whose body is `null`, reading `error.response.data.error` throws a `TypeError`
inside the `catch` block; the exception leaves `generateAnswer`, no answer
message is appended (the history is one longer than before, not two) and the
in-progress flag stays set. -/
theorem generateAnswer_null_error_body :
    generateAnswer (.str "k") (AppState.mk [] "hi" (.str "") false)
        (.rejected { response := some { data := .null } }) =
      ({ state := AppState.mk [{ type := .question, content := .str "hi" }] "" (.str "") true
         thrown := some .typeError },
        some (axiosRequest (.str "k") "hi")) :=
  rfl

/-- Every other outcome settles as C2 says: from an idle state and a draft with
a non-empty trimmed form, unless the request is rejected with a response whose
body is `undefined` or `null`, nothing is thrown, the in-progress flag ends
cleared and the history ends as the old one followed by the question and one
answer message. -/
theorem generateAnswer_settles (apiKey : JSVal) (s : AppState) (outcome : AxiosOutcome)
    (hidle : s.generatingAnswer = false) (htext : jsTrim s.question ≠ "")
    (hbody : outcome.rejectedWithNullishBody = false) :
    ∃ content : JSVal,
      (generateAnswer apiKey s outcome).1.thrown = none ∧
      (generateAnswer apiKey s outcome).1.state.generatingAnswer = false ∧
      (generateAnswer apiKey s outcome).1.state.chatHistory =
        s.chatHistory ++ [{ type := .question, content := .str s.question },
          { type := .answer, content := content }] := by
  have _ := hidle
  simp only [generateAnswer, generateAnswerSync_of_text apiKey s htext]
  cases outcome with
  | resolved response =>
    exact ⟨aiResponse response, rfl, rfl, by simp [generateAnswerSettle_resolved]⟩
  | rejected error =>
    cases error with
    | mk response =>
      cases response with
      | none =>
        exact ⟨.str "Sorry - Something went wrong. Please try again!", rfl, rfl,
          by simp [generateAnswerSettle_noResponse]⟩
      | some r =>
        obtain ⟨text, ht⟩ := errorText_of_not_nullish r hbody
        exact ⟨.str text, by simp [generateAnswerSettle_of_errorText _ r text ht],
          by simp [generateAnswerSettle_of_errorText _ r text ht],
          by simp [generateAnswerSettle_of_errorText _ r text ht]⟩

end Prospera
